import Mathlib

/-!
Shallow embedding of the AOI-selection and product-filtering helpers of
`asf_notebook.py` (Alaska Satellite Facility OpenSARLab notebook module).

Conventions used throughout:
* Python strings are Lean `String`s; positional operations (`split`, slicing)
  are performed on the underlying `List Char`.
* Python `datetime.date` is the `Date` structure below; construction validates
  ranges the way `datetime.date.__init__` does, and comparison is
  lexicographic on (year, month, day), as in CPython.
* A Python function that can raise (assertion failure, IndexError,
  ValueError, `sys.exit`) is embedded returning `Option`/`Except`: `none` /
  `.error` marks abnormal termination, while a normal `return None` is
  `some none` / `.ok none`.
* External effects (filesystem probes, HTTP responses, interactive input)
  are passed in as explicit parameters, so every definition is executable.
* Python floats appear only as EPSG:3857 coordinates that are merely
  compared; they are embedded as exact rationals `ℚ`.
-/

/-- Python `datetime.date`: a calendar date. CPython compares dates
lexicographically on (year, month, day). -/
structure Date where
  year : Nat
  month : Nat
  day : Nat
deriving DecidableEq, Repr

/-- Python `date1 < date2` (lexicographic). -/
def date_lt (a b : Date) : Bool :=
  a.year < b.year ||
    (a.year == b.year &&
      (a.month < b.month || (a.month == b.month && a.day < b.day)))

/-- Python `date1 <= date2` (lexicographic). -/
def date_le (a b : Date) : Bool :=
  date_lt a b || a == b

/-- Gregorian leap-year rule used by `datetime`. -/
def isLeapYear (y : Nat) : Bool :=
  y % 4 == 0 && (y % 100 != 0 || y % 400 == 0)

/-- Number of days in a month, as validated by `datetime.date`. -/
def daysInMonth (y m : Nat) : Nat :=
  if m = 2 then (if isLeapYear y then 29 else 28)
  else if m = 4 ∨ m = 6 ∨ m = 9 ∨ m = 11 then 30
  else 31

/-- Python `datetime.date(y, m, d)`: validates `1 <= y <= 9999`, `1 <= m <= 12`,
`1 <= d <= daysInMonth`; out of range raises (here: `none`). -/
def mkDate (y m d : Nat) : Option Date :=
  if 1 ≤ y ∧ y ≤ 9999 ∧ 1 ≤ m ∧ m ≤ 12 ∧ 1 ≤ d ∧ d ≤ daysInMonth y m then
    some ⟨y, m, d⟩
  else none

/-- Python `str.split(sep)` for a one-character separator: splits at every
occurrence, keeping empty pieces; the result is always non-empty
(`"".split(c) == [""]`). -/
def pySplit (sep : Char) : List Char → List (List Char)
  | [] => [[]]
  | c :: rest =>
    let r := pySplit sep rest
    if c = sep then [] :: r
    else
      match r with
      | [] => [[c]]
      | h :: t => (c :: h) :: t

/-- Python `int(s)` on a slice of date digits: succeeds on a non-empty
all-digit string, computing its decimal value; anything else raises
(here: `none`). -/
def charsToNat? (cs : List Char) : Option Nat :=
  if cs = [] then none
  else if cs.all (fun c => c.isDigit) then
    some (cs.foldl (fun acc c => acc * 10 + (c.toNat - 48)) 0)
  else none

/-- Python `datetime.date(int(d[0:4]), int(d[4:6]), int(d[6:8]))` applied to the
token `d` that holds the `YYYYMMDD` date digits. -/
def dateFromDigits (d : List Char) : Option Date :=
  match charsToNat? (d.take 4), charsToNat? ((d.drop 4).take 2),
        charsToNat? ((d.drop 6).take 2) with
  | some y, some m, some dd => mkDate y m dd
  | _, _, _ => none

/-- A Hyp3 product-info record; only the `name` key is inspected by the
functions embedded here. -/
structure Product where
  name : String
deriving DecidableEq, Repr

/-- Function `get_aquisition_date_from_product_name(product_info)`: split the name on
`_`; a single token means the hyphen-delimited convention (date digits in the
second `-`-token), otherwise the date digits are in the fifth `_`-token.
An out-of-range index or non-digit slice raises (here: `none`). -/
def get_aquisition_date_from_product_name (product_info : Product) : Option Date :=
  let cs := product_info.name.toList
  let split_name := pySplit '_' cs
  if split_name.length = 1 then
    match (pySplit '-' cs)[1]? with
    | none => none
    | some d => dateFromDigits d
  else
    match split_name[4]? with
    | none => none
    | some d => dateFromDigits d

/-- The traversal inside `filter_date_range`: keep products whose acquisition
date `d` satisfies `start <= d < end`; a product whose name fails to parse
raises out of the whole call (here: `none`). -/
def filterDateGo (s e : Date) : List Product → Option (List Product)
  | [] => some []
  | p :: rest =>
    match get_aquisition_date_from_product_name p with
    | none => none
    | some d =>
      match filterDateGo s e rest with
      | none => none
      | some tail =>
        some (if date_le s d && date_lt d e then p :: tail else tail)

/-- Function `filter_date_range(product_list, start_date, end_date)`: asserts the list
is non-empty (empty input is an assertion failure, `none`), then keeps the
products whose acquisition date lies in `[start_date, end_date)`. -/
def filter_date_range (product_list : List Product) (start_date end_date : Date) :
    Option (List Product) :=
  if product_list.length = 0 then none
  else filterDateGo start_date end_date product_list

/-- The fixed list of Vertex API flight-direction key values. -/
def valid_directions : List String :=
  ["A", "ASC", "ASCENDING", "D", "DESC", "DESCENDING"]

/-- Function `flight_direction_valid(flight_direction)`: `True` iff the string is a
member of `valid_directions` (exact, case-sensitive match). -/
def flight_direction_valid (flight_direction : String) : Bool :=
  valid_directions.contains flight_direction

/-- A Hyp3 subscription record (`id` unique per account, plus a `name`). -/
structure Subscription where
  id : Int
  name : String
deriving DecidableEq, Repr

/-- Python truthiness of the value returned by
`hyp3_api_object.get_subscriptions(enabled=True)`: both `None` and the empty
list are falsy. -/
def subsFalsy : Option (List Subscription) → Bool
  | none => true
  | some l => l.isEmpty

/-- Function `get_hyp3_subscriptions(hyp3_api_object)`: fetches the enabled
subscriptions (the fetched value is the parameter here), prints a
"no subscriptions" message when that value is falsy, and returns the fetched
value unchanged. The first component records whether the message was
printed. -/
def get_hyp3_subscriptions (fetched : Option (List Subscription)) :
    Bool × Option (List Subscription) :=
  (subsFalsy fetched, fetched)

/-- The environment `download_ASF_granule` interacts with after resolving the
granule: the resolved file name, the `content-length` declared by the server,
the byte size of a pre-existing local file of that name (`none` if absent),
and the byte size the local file has after `download()` runs. -/
structure GranuleDownloadEnv where
  fileName : String
  contentLength : Nat
  existingSize : Option Nat
  downloadedSize : Nat
deriving DecidableEq, Repr

/-- The download-and-verify tail of `download_ASF_granule`: after
`download()`, a file smaller than the declared `content-length` is a failure
(`None` returned, here `none`); otherwise the file name is returned. -/
def granuleDownloadTail (env : GranuleDownloadEnv) : Bool × Option String :=
  if env.downloadedSize < env.contentLength then (true, none)
  else (true, some env.fileName)

/-- Function `download_ASF_granule(granule_name, processing_level)` after granule
resolution: if a local file of the expected name exists with byte size equal
to the declared `content-length`, skip the download and return the file name;
otherwise download and verify. The first component records whether
`download()` was invoked. -/
def download_ASF_granule (env : GranuleDownloadEnv) : Bool × Option String :=
  match env.existingSize with
  | some sz =>
    if sz = env.contentLength then (false, some env.fileName)
    else granuleDownloadTail env
  | none => granuleDownloadTail env

/-- Maximum EPSG:3857 x-coordinate, `20037508.342789244`, as an exact
rational. -/
def worldX : ℚ := mkRat 20037508342789244 1000000000

/-- Maximum EPSG:3857 y-coordinate, `19971868.880408563`, as an exact
rational. -/
def worldY : ℚ := mkRat 19971868880408563 1000000000

/-- The durable state of an `AOI` object: the fixed stack corner coordinates
and the user-selected subset corner coordinates. The display state (figure
handle, data sources, callbacks) is widget wiring with no bearing on these
fields and is not modelled. -/
structure AOI where
  tiff_stack_coords : List (List ℚ)
  subset_coords : List (List (Option ℚ))
deriving DecidableEq, Repr

/-- Constructor `AOI.__init__(lower_left_coord, upper_right_coord)`: asserts both
arguments are two-element lists, asserts `ll.x < ur.x` and `ll.y < ur.y`,
and asserts both corners lie within the EPSG:3857 world extent; any
violation is an assertion failure (`none`). On success `tiff_stack_coords`
holds the two corners and `subset_coords` starts as nulls. -/
def AOI.init (lower_left_coord upper_right_coord : List ℚ) : Option AOI :=
  match lower_left_coord, upper_right_coord with
  | [llx, lly], [urx, ury] =>
    if llx < urx ∧ lly < ury then
      if (llx < -worldX ∨ llx > worldX) ∨ (urx < -worldX ∨ urx > worldX) ∨
         (lly < -worldY ∨ lly > worldY) ∨ (ury < -worldY ∨ ury > worldY) then
        none
      else
        some ⟨[[llx, lly], [urx, ury]], [[none, none], [none, none]]⟩
    else none
  | _, _ => none

/-- The `python_callback` installed by `AOI.update_subset_bounds`: writes the
geometry event's `x0, y0, x1, y1` elementwise into
`subset_coords[0][0], [0][1], [1][0], [1][1]`. -/
def AOI.update_subset_bounds (a : AOI) (x0 y0 x1 y1 : ℚ) : AOI :=
  let sc := a.subset_coords
  let row0 := ((sc.getD 0 []).set 0 (some x0)).set 1 (some y0)
  let row1 := ((sc.getD 1 []).set 0 (some x1)).set 1 (some y1)
  ⟨a.tiff_stack_coords, (sc.set 0 row0).set 1 row1⟩

/-- Method `AOI.reset_subset_bounds()`: restores `subset_coords` to the unset
state. -/
def AOI.reset_subset_bounds (a : AOI) : AOI :=
  ⟨a.tiff_stack_coords, [[none, none], [none, none]]⟩

/-- The two widget events relevant to `subset_coords`: a completed
box-selection geometry event and the plot's reset event. -/
inductive AOIEvent where
  | selectionGeometry (x0 y0 x1 y1 : ℚ)
  | reset
deriving DecidableEq, Repr

/-- The durable state effect of `AOI.build_plot`: the line
`self.p.js_on_event(events.Reset, self.reset_subset_bounds())` evaluates
`reset_subset_bounds()` immediately — once, while the plot is being built —
and passes its `None` return value to `js_on_event` as the would-be
JavaScript callback. -/
def AOI.build_plot (a : AOI) : AOI :=
  a.reset_subset_bounds

/-- Dispatch of a widget event to the Python callbacks that `build_plot`
registered: `on_event(events.SelectionGeometry, self.update_subset_bounds(...))`
registered the returned `python_callback`, so a geometry event writes the
rectangle into `subset_coords`; the Reset registration instead went through
`js_on_event` with the `None` that the build-time `reset_subset_bounds()`
call returned, so a reset event runs no Python callback at all and the state
is unchanged. -/
def AOI.handle_event (a : AOI) : AOIEvent → AOI
  | AOIEvent.selectionGeometry x0 y0 x1 y1 => a.update_subset_bounds x0 y0 x1 y1
  | AOIEvent.reset => a

/-- The wildcard path `f"{base_path}/*/*{separator}{band}.tif"` probed and
returned by `select_RTC_polarization`. -/
def rtcWildcard (base_path separator band : String) : String :=
  base_path ++ "/*/*" ++ separator ++ band ++ ".tif"

/-- The user-choice loop in `select_RTC_polarization` when several
polarizations are present: consume integer inputs until one satisfies
`0 <= choice <= len(polarizations)`; `choice = len` then hits an IndexError
(the loop bound is off by one in the source), smaller choices return the
corresponding wildcard path. Running out of input blocks forever
(here: `.error`). -/
def rtcChoiceLoop (base_path : String) (polarizations : List String) :
    List Int → Except String (Option String)
  | [] => Except.error "blocked waiting for user input"
  | c :: rest =>
    if c > (polarizations.length : Int) ∨ c < 0 then
      rtcChoiceLoop base_path polarizations rest
    else
      match polarizations[c.toNat]? with
      | some p => Except.ok (some (base_path ++ "/*/*" ++ p ++ ".tif"))
      | none => Except.error "IndexError: list index out of range"

/-- Function `select_RTC_polarization(process_type, base_path)`: asserts
`process_type` is 2 (separator `_`) or 18 (separator `-`), probes the
filesystem (`probe`, the `polarization_exists` glob check) for each of the
VV, VH, HV, HH bands, then: exactly one hit returns its wildcard path
directly; several hits prompt the user; no hits prints an error and returns
`None` (here `.ok none`). -/
def select_RTC_polarization (process_type : Nat) (base_path : String)
    (probe : String → Bool) (inputs : List Int) : Except String (Option String) :=
  if process_type = 2 ∨ process_type = 18 then
    let separator := if process_type = 2 then "_" else "-"
    let polarizations :=
      (if probe (rtcWildcard base_path separator "VV") then
        [separator ++ "VV"] else []) ++
      (if probe (rtcWildcard base_path separator "VH") then
        [separator ++ "VH"] else []) ++
      (if probe (rtcWildcard base_path separator "HV") then
        [separator ++ "HV"] else []) ++
      (if probe (rtcWildcard base_path separator "HH") then
        [separator ++ "HH"] else [])
    if polarizations.length = 1 then
      Except.ok (some (base_path ++ "/*/*" ++ polarizations.getD 0 "" ++ ".tif"))
    else if 1 < polarizations.length then
      rtcChoiceLoop base_path polarizations inputs
    else
      Except.ok none
  else Except.error "assertion failed: process_type must be 2 or 18"

/-- Python truthiness of the optional `flight_direction` argument: `None`
and the empty string are falsy. -/
def strTruthy : Option String → Bool
  | none => false
  | some s => !s.isEmpty

/-- Python truthiness of the optional `path` argument: `None` and `0` are
falsy. -/
def intTruthy : Option Int → Bool
  | none => false
  | some n => n != 0

/-- Function `product_filter(product_list, flight_direction, path)`: asserts the list
is non-empty (here `.error`); when at least one of the two filters is truthy,
keeps the products for which the secondary Vertex lookup (parameter
`lookup`, applied to the product name's first `-`-token and to whichever
filter parameters were sent) returns a non-empty first result; when both
filters are falsy no branch executes and the function implicitly returns
`None` (here `.ok none`). -/
def product_filter (product_list : List Product) (flight_direction : Option String)
    (path : Option Int) (lookup : String → Option String → Option Int → Bool) :
    Except String (Option (List Product)) :=
  if product_list.length = 0 then
    Except.error "assertion failed: product_list must be non-empty"
  else if strTruthy flight_direction || intTruthy path then
    Except.ok (some (product_list.filter (fun p =>
      let granule_name := ((pySplit '-' p.name.toList).getD 0 []).asString
      lookup granule_name
        (if strTruthy flight_direction then flight_direction else none)
        (if intTruthy path then path else none))))
  else Except.ok none

/-- The first three sample products of the date-range boundary example:
acquired 2020-01-01, 2020-06-15 and 2020-12-31. -/
def productJan : Product := ⟨"S1A_IW_GRDH_1SDV_20200101T120000"⟩

/-- Sample product acquired 2020-06-15. -/
def productJun : Product := ⟨"S1A_IW_GRDH_1SDV_20200615T120000"⟩

/-- Sample product acquired 2020-12-31. -/
def productDec : Product := ⟨"S1A_IW_GRDH_1SDV_20201231T120000"⟩

/-- A filesystem probe under which only the GAMMA-style VV band file is
present. -/
def probeVVOnly : String → Bool := fun s => s == "rtc_products/*/*_VV.tif"

/-- A filesystem probe under which no polarization band file is present. -/
def probeNothing : String → Bool := fun _ => false

/-- The acquisition-date-in-range predicate applied by `filter_date_range`
to each product. -/
def inDateRange (s e : Date) (p : Product) : Bool :=
  match get_aquisition_date_from_product_name p with
  | some d => date_le s d && date_lt d e
  | none => false

theorem filterDateGo_eq_filter (s e : Date) (ps : List Product)
    (hp : ∀ p ∈ ps, (get_aquisition_date_from_product_name p).isSome) :
    filterDateGo s e ps = some (ps.filter (inDateRange s e)) := by
  induction ps with
  | nil => rfl
  | cons p rest ih =>
    have hp1 : (get_aquisition_date_from_product_name p).isSome :=
      hp p (List.mem_cons_self p rest)
    obtain ⟨d, hd⟩ := Option.isSome_iff_exists.mp hp1
    have hrest := ih (fun q hq => hp q (List.mem_cons_of_mem p hq))
    by_cases hc : (date_le s d && date_lt d e) = true
    · simp [filterDateGo, hd, hrest, List.filter_cons, inDateRange, hc]
    · simp [filterDateGo, hd, hrest, List.filter_cons, inDateRange, hc]

/-- C1 (amended): for every non-empty product list whose names all parse to
acquisition dates, `filter_date_range` with start date `s` and end date `e`
returns exactly the products whose acquisition date `d` satisfies
`s <= d < e` (start-inclusive, end-exclusive). The empty list instead
trips the non-emptiness assertion. -/
theorem filter_date_range_spec (ps : List Product) (s e : Date)
    (hne : ps ≠ [])
    (hp : ∀ p ∈ ps, (get_aquisition_date_from_product_name p).isSome) :
    filter_date_range ps s e = some (ps.filter (inDateRange s e)) := by
  have hlen : ¬ ps.length = 0 := by
    simpa [List.length_eq_zero] using hne
  rw [filter_date_range, if_neg hlen]
  exact filterDateGo_eq_filter s e ps hp

/-- C1 witness: products dated 2020-01-01, 2020-06-15 and 2020-12-31
filtered over `[2020-01-01, 2020-12-31)` yield exactly the first two
(start-inclusive, end-exclusive). -/
theorem filter_date_range_spec_witness :
    filter_date_range [productJan, productJun, productDec]
        ⟨2020, 1, 1⟩ ⟨2020, 12, 31⟩ = some [productJan, productJun] := by
  have h := filter_date_range_spec [productJan, productJun, productDec]
    ⟨2020, 1, 1⟩ ⟨2020, 12, 31⟩ (by decide) (by decide)
  rw [h]
  decide

/-- C1 counterexample: on the empty product list the original claim demands
the empty filtered list back, but `filter_date_range` hits the
non-emptiness assertion and aborts without returning a list. -/
theorem filter_date_range_empty_cex :
    filter_date_range [] ⟨2020, 1, 1⟩ ⟨2020, 12, 31⟩ = none ∧
    filter_date_range [] ⟨2020, 1, 1⟩ ⟨2020, 12, 31⟩ ≠ some [] := by
  decide

/-- C2: a product name that splits on `_` into a single token is re-split on
`-` and its date digits are read (as `YYYYMMDD`) from the second token; a
name with more than one `_`-token has them read from the fifth `_`-token;
in particular `S1A_IW_GRDH_1SDV_20200615T120000` and `RS2-20200615-HH`
both parse to 2020-06-15. -/
theorem get_aquisition_date_spec :
    (∀ p : Product, ∀ t, (pySplit '_' p.name.toList).length = 1 →
        (pySplit '-' p.name.toList)[1]? = some t →
        get_aquisition_date_from_product_name p = dateFromDigits t) ∧
    (∀ p : Product, ∀ t, 1 < (pySplit '_' p.name.toList).length →
        (pySplit '_' p.name.toList)[4]? = some t →
        get_aquisition_date_from_product_name p = dateFromDigits t) ∧
    get_aquisition_date_from_product_name ⟨"S1A_IW_GRDH_1SDV_20200615T120000"⟩ =
      some ⟨2020, 6, 15⟩ ∧
    get_aquisition_date_from_product_name ⟨"RS2-20200615-HH"⟩ =
      some ⟨2020, 6, 15⟩ := by
  refine ⟨?_, ?_, by decide, by decide⟩
  · intro p t h1 h2
    simp only [String.toList] at h1 h2
    simp [get_aquisition_date_from_product_name, h1, h2]
  · intro p t h1 h2
    have hne : (pySplit '_' p.name.toList).length ≠ 1 := Nat.ne_of_gt h1
    simp only [String.toList] at h2 hne
    simp [get_aquisition_date_from_product_name, hne, h2]

/-- C2 witness: both conventions applied to the two concrete example names. -/
theorem get_aquisition_date_spec_witness :
    get_aquisition_date_from_product_name ⟨"RS2-20200615-HH"⟩ =
      dateFromDigits "20200615".toList ∧
    get_aquisition_date_from_product_name ⟨"S1A_IW_GRDH_1SDV_20200615T120000"⟩ =
      dateFromDigits "20200615T120000".toList :=
  ⟨get_aquisition_date_spec.1 ⟨"RS2-20200615-HH"⟩ "20200615".toList
      (by decide) (by decide),
   get_aquisition_date_spec.2.1 ⟨"S1A_IW_GRDH_1SDV_20200615T120000"⟩
      "20200615T120000".toList (by decide) (by decide)⟩

/-- C3: `flight_direction_valid` accepts exactly the strings A, ASC,
ASCENDING, D, DESC, DESCENDING (case-sensitive exact match); in particular
it rejects `asc` and `East`. -/
theorem flight_direction_valid_spec (s : String) :
    (flight_direction_valid s = true ↔
      s = "A" ∨ s = "ASC" ∨ s = "ASCENDING" ∨
      s = "D" ∨ s = "DESC" ∨ s = "DESCENDING") ∧
    flight_direction_valid "asc" = false ∧
    flight_direction_valid "East" = false := by
  refine ⟨?_, by decide, by decide⟩
  simp [flight_direction_valid, valid_directions]

/-- C3 witness: the accepting direction of the characterization at the
concrete member `ASC`. -/
theorem flight_direction_valid_spec_witness :
    flight_direction_valid "ASC" = true :=
  (flight_direction_valid_spec "ASC").1.mpr (Or.inr (Or.inl rfl))

/-- C4: when the remote API hands back the empty list of enabled
subscriptions, `get_hyp3_subscriptions` prints the no-subscriptions report
(first component `true`) but returns that empty list itself, which is not
the `None` sentinel its docstring promises — callers cannot distinguish
"no subscriptions" from an empty list. -/
theorem get_hyp3_subscriptions_empty_list :
    get_hyp3_subscriptions (some ([] : List Subscription)) = (true, some []) ∧
    (some ([] : List Subscription)) ≠ (none : Option (List Subscription)) := by
  refine ⟨rfl, by simp⟩

/-- C5: after resolving the granule, `download_ASF_granule` skips the
download and returns the file name when a local file of exactly the declared
`content-length` exists; otherwise it downloads, returning `None` when the
resulting file is smaller than `content-length` and the file name
otherwise. -/
theorem download_ASF_granule_spec (env : GranuleDownloadEnv) :
    (env.existingSize = some env.contentLength →
        download_ASF_granule env = (false, some env.fileName)) ∧
    (env.existingSize ≠ some env.contentLength →
      env.downloadedSize < env.contentLength →
        download_ASF_granule env = (true, none)) ∧
    (env.existingSize ≠ some env.contentLength →
      env.contentLength ≤ env.downloadedSize →
        download_ASF_granule env = (true, some env.fileName)) := by
  obtain ⟨f, cl, ex, dl⟩ := env
  refine ⟨fun h => ?_, fun h hlt => ?_, fun h hge => ?_⟩
  · simp only at h
    subst h
    simp [download_ASF_granule]
  · cases ex with
    | none => simp [download_ASF_granule, granuleDownloadTail, hlt]
    | some sz =>
      have hsz : ¬ sz = cl := by
        intro hc
        exact h (by simpa using hc)
      simp [download_ASF_granule, granuleDownloadTail, hsz, hlt]
  · have hnlt : ¬ dl < cl := not_lt.mpr hge
    cases ex with
    | none => simp [download_ASF_granule, granuleDownloadTail, hnlt]
    | some sz =>
      have hsz : ¬ sz = cl := by
        intro hc
        exact h (by simpa using hc)
      simp [download_ASF_granule, granuleDownloadTail, hsz, hnlt]

/-- C5 witness: the three branches at concrete environments — exact-size
file present (skip), short download (failure), complete download
(success). -/
theorem download_ASF_granule_spec_witness :
    download_ASF_granule ⟨"g.zip", 1000, some 1000, 0⟩ = (false, some "g.zip") ∧
    download_ASF_granule ⟨"g.zip", 1000, none, 500⟩ = (true, none) ∧
    download_ASF_granule ⟨"g.zip", 1000, some 400, 1000⟩ = (true, some "g.zip") :=
  ⟨(download_ASF_granule_spec ⟨"g.zip", 1000, some 1000, 0⟩).1 rfl,
   (download_ASF_granule_spec ⟨"g.zip", 1000, none, 500⟩).2.1 (by decide) (by decide),
   (download_ASF_granule_spec ⟨"g.zip", 1000, some 400, 1000⟩).2.2 (by decide) (by decide)⟩

/-- C10: with both `flight_direction` and `path` absent, `product_filter`
skips the only branch that builds a result and implicitly returns `None`,
never the unfiltered input list: callers must pass at least one filter to
get a list back. -/
theorem product_filter_no_filters (product_list : List Product)
    (lookup : String → Option String → Option Int → Bool)
    (hne : product_list ≠ []) :
    product_filter product_list none none lookup = Except.ok none ∧
    product_filter product_list none none lookup ≠
      Except.ok (some product_list) := by
  have hlen : ¬ product_list.length = 0 := by
    simpa [List.length_eq_zero] using hne
  have h : product_filter product_list none none lookup = Except.ok none := by
    rw [product_filter, if_neg hlen]
    simp [strTruthy, intTruthy]
  exact ⟨h, by rw [h]; simp⟩

/-- C10 witness: a one-product list with no filters comes back as the
`None` return, not as a list. -/
theorem product_filter_no_filters_witness :
    product_filter [productJan] none none (fun _ _ _ => true) = Except.ok none ∧
    product_filter [productJan] none none (fun _ _ _ => true) ≠
      Except.ok (some [productJan]) :=
  product_filter_no_filters [productJan] (fun _ _ _ => true) (by decide)

/-- C6: a corner pair that violates the ordering requirement
(`ll.x < ur.x` and `ll.y < ur.y`) or places a corner outside the EPSG:3857
world extent makes `AOI.__init__` fail its assertions: no object is
constructed. -/
theorem AOI_init_invalid (llx lly urx ury : ℚ)
    (h : ¬(llx < urx ∧ lly < ury) ∨
         (llx < -worldX ∨ llx > worldX ∨ urx < -worldX ∨ urx > worldX ∨
          lly < -worldY ∨ lly > worldY ∨ ury < -worldY ∨ ury > worldY)) :
    AOI.init [llx, lly] [urx, ury] = none := by
  simp only [AOI.init]
  rcases h with h | h
  · rw [if_neg h]
  · by_cases ho : llx < urx ∧ lly < ury
    · have hb : (llx < -worldX ∨ llx > worldX) ∨ (urx < -worldX ∨ urx > worldX) ∨
          (lly < -worldY ∨ lly > worldY) ∨ (ury < -worldY ∨ ury > worldY) := by
        tauto
      rw [if_pos ho, if_pos hb]
    · rw [if_neg ho]

/-- C6 witness: corners given in the wrong order are rejected. -/
theorem AOI_init_invalid_witness :
    AOI.init [5, 5] [1, 1] = none :=
  AOI_init_invalid 5 5 1 1 (Or.inl (by decide))

/-- C7: every corner pair with `llx < urx`, `lly < ury` and both corners
inside the EPSG:3857 world extent constructs an AOI whose
`tiff_stack_coords` holds the two corners and whose `subset_coords` starts
as nulls. -/
theorem AOI_init_valid (llx lly urx ury : ℚ)
    (hx : llx < urx) (hy : lly < ury)
    (hllx : -worldX ≤ llx ∧ llx ≤ worldX)
    (hurx : -worldX ≤ urx ∧ urx ≤ worldX)
    (hlly : -worldY ≤ lly ∧ lly ≤ worldY)
    (hury : -worldY ≤ ury ∧ ury ≤ worldY) :
    AOI.init [llx, lly] [urx, ury] =
      some ⟨[[llx, lly], [urx, ury]], [[none, none], [none, none]]⟩ := by
  have hb : ¬((llx < -worldX ∨ llx > worldX) ∨ (urx < -worldX ∨ urx > worldX) ∨
      (lly < -worldY ∨ lly > worldY) ∨ (ury < -worldY ∨ ury > worldY)) := by
    push_neg
    exact ⟨⟨hllx.1, hllx.2⟩, ⟨hurx.1, hurx.2⟩, ⟨hlly.1, hlly.2⟩,
      ⟨hury.1, hury.2⟩⟩
  simp only [AOI.init]
  rw [if_pos ⟨hx, hy⟩, if_neg hb]

/-- C7 witness: a small centred box constructs successfully with null
`subset_coords`. -/
theorem AOI_init_valid_witness :
    AOI.init [-100, -100] [100, 100] =
      some ⟨[[-100, -100], [100, 100]], [[none, none], [none, none]]⟩ :=
  AOI_init_valid (-100) (-100) 100 100 (by decide) (by decide)
    (by decide) (by decide) (by decide) (by decide)

/-- C8: the selection half of the claim holds — the geometry event writes
`x0=0, y0=0, x1=100, y1=100` verbatim into `subset_coords` as
`[[0, 0], [100, 100]]` — but the reset half does not: the wiring
`js_on_event(events.Reset, self.reset_subset_bounds())` called the method
once while building the plot and registered its `None` return, so the
subsequent reset event runs no Python callback and `subset_coords` remains
`[[0, 0], [100, 100]]` instead of being restored to
`[[null, null], [null, null]]`. -/
theorem AOI_reset_event_not_restored :
    (((⟨[[0, 0], [100, 100]], [[none, none], [none, none]]⟩ : AOI).build_plot).handle_event
        (AOIEvent.selectionGeometry 0 0 100 100)).subset_coords =
      [[some 0, some 0], [some 100, some 100]] ∧
    ((((⟨[[0, 0], [100, 100]], [[none, none], [none, none]]⟩ : AOI).build_plot).handle_event
        (AOIEvent.selectionGeometry 0 0 100 100)).handle_event
          AOIEvent.reset).subset_coords =
      [[some 0, some 0], [some 100, some 100]] ∧
    ((((⟨[[0, 0], [100, 100]], [[none, none], [none, none]]⟩ : AOI).build_plot).handle_event
        (AOIEvent.selectionGeometry 0 0 100 100)).handle_event
          AOIEvent.reset).subset_coords ≠
      [[none, none], [none, none]] := by
  decide

theorem rtcPolarizations_eq (probe : String → Bool) (base sep : String) :
    (if probe (rtcWildcard base sep "VV") then [sep ++ "VV"] else []) ++
    (if probe (rtcWildcard base sep "VH") then [sep ++ "VH"] else []) ++
    (if probe (rtcWildcard base sep "HV") then [sep ++ "HV"] else []) ++
    (if probe (rtcWildcard base sep "HH") then [sep ++ "HH"] else []) =
    (["VV", "VH", "HV", "HH"].filter
        (fun band => probe (rtcWildcard base sep band))).map
      (fun band => sep ++ band) := by
  cases h1 : probe (rtcWildcard base sep "VV") <;>
  cases h2 : probe (rtcWildcard base sep "VH") <;>
  cases h3 : probe (rtcWildcard base sep "HV") <;>
  cases h4 : probe (rtcWildcard base sep "HH") <;>
  simp [List.filter_cons, h1, h2, h3, h4]

/-- C9: with process type 2 (separator `_`) or 18 (separator `-`), when
exactly one of the VV, VH, HV, HH bands has a file matching its wildcard
path under `base_path`, `select_RTC_polarization` returns that band's
wildcard path regardless of any user input (no prompt needed); when none
matches, it reports the error and returns `None`. -/
theorem select_RTC_polarization_spec (process_type : Nat) (base_path : String)
    (probe : String → Bool) (inputs : List Int)
    (hpt : process_type = 2 ∨ process_type = 18) :
    (∀ b, (["VV", "VH", "HV", "HH"].filter (fun band =>
          probe (rtcWildcard base_path
            (if process_type = 2 then "_" else "-") band))) = [b] →
        select_RTC_polarization process_type base_path probe inputs =
          Except.ok (some (rtcWildcard base_path
            (if process_type = 2 then "_" else "-") b))) ∧
    ((["VV", "VH", "HV", "HH"].filter (fun band =>
          probe (rtcWildcard base_path
            (if process_type = 2 then "_" else "-") band))) = [] →
        select_RTC_polarization process_type base_path probe inputs =
          Except.ok none) := by
  constructor
  · intro b hb
    rw [select_RTC_polarization, if_pos hpt]
    simp only [rtcPolarizations_eq, hb, List.map_cons, List.map_nil]
    simp [rtcWildcard, String.append_assoc]
  · intro hb
    rw [select_RTC_polarization, if_pos hpt]
    simp only [rtcPolarizations_eq, hb, List.map_nil]
    simp

/-- C9 witness: with only the VV band on disk and no user input available,
process type 2 auto-selects the VV wildcard path; with no bands on disk it
returns the `None` report. -/
theorem select_RTC_polarization_spec_witness :
    select_RTC_polarization 2 "rtc_products" probeVVOnly [] =
      Except.ok (some "rtc_products/*/*_VV.tif") ∧
    select_RTC_polarization 2 "rtc_products" probeNothing [] =
      Except.ok none := by
  constructor
  · have h := (select_RTC_polarization_spec 2 "rtc_products" probeVVOnly []
      (Or.inl rfl)).1 "VV" (by decide)
    rw [h]
    exact congrArg (fun s => (Except.ok (some s) : Except String (Option String)))
      (by decide)
  · exact (select_RTC_polarization_spec 2 "rtc_products" probeNothing []
      (Or.inl rfl)).2 (by decide)
